import Mathlib

/-!
Shallow embedding of the parameter-panel demo application
(`src/gui/src/main.rs`).  Normalized widget values are modelled as
rationals; the logarithmic frequency conversion needs a real-valued
exponential and is the one place the model leaves the rationals.

The four value-range conversions (`FloatRange`, `IntRange`, `LogDBRange`,
`FreqRange`) and the `Normal` / `NormalParam` types come from the external
widget toolkit and are not part of this repository's sources; they are
modelled from the specification, as noted on each definition.
The event-dispatch function `App.update` is translated directly from the
source file.
-/

namespace ParisGreen

/-- Model of the toolkit's `Normal` type: a normalized scalar.  The spec
treats membership in the interval from 0 to 1 as a trusted invariant
enforced upstream, so the model uses a plain rational and states the
bound as a hypothesis where a claim needs it. -/
abbrev Normal := ℚ

/-- Modelled from the spec: the center normalized value used when
constructing the decibel range (`Normal::CENTER`). -/
def Normal.CENTER : Normal := 1/2

/-- Modelled from the spec: a parameter pairs a mutable normalized value
with a default normalized value (toolkit type `NormalParam`). -/
structure NormalParam where
  value : Normal
  default : Normal
  deriving DecidableEq

/-- Modelled from the spec: a parameter is mutated by storing the new
normalized value carried by its UI event; the default is untouched. -/
def NormalParam.update (p : NormalParam) (n : Normal) : NormalParam :=
  { p with value := n }

/-- Modelled from the spec: a linear range of float values, mapping
the normalized interval onto the interval from `min` to `max` linearly. -/
structure FloatRange where
  min : ℚ
  max : ℚ
  deriving DecidableEq

/-- Modelled from the spec: the bipolar default float range covers
the interval from -1 to 1. -/
def FloatRange.default_bipolar : FloatRange :=
  { min := -1, max := 1 }

/-- Modelled from the spec: linear conversion of a normalized value to a
real-world float value. -/
def FloatRange.unmap_to_value (r : FloatRange) (n : Normal) : ℚ :=
  r.min + n * (r.max - r.min)

/-- Modelled from the spec: a discrete range of integer values. -/
structure IntRange where
  min : ℤ
  max : ℤ
  deriving DecidableEq

/-- Modelled from the spec: `IntRange::new(min, max)`. -/
def IntRange.new (min max : ℤ) : IntRange :=
  { min := min, max := max }

/-- Modelled from the spec: converting a normalized value to the nearest
integer of the stepped range.  The spec leaves the tie-break to the
implementer and suggests round-half-up, which is what the model uses. -/
def IntRange.unmap_to_value (r : IntRange) (n : Normal) : ℤ :=
  ⌊(r.min : ℚ) + n * ((r.max : ℚ) - (r.min : ℚ)) + 1/2⌋

/-- Modelled from the spec: the normalized position of an integer value
inside the stepped range. -/
def IntRange.map_to_normal (r : IntRange) (v : ℤ) : Normal :=
  ((v : ℚ) - (r.min : ℚ)) / ((r.max : ℚ) - (r.min : ℚ))

/-- Modelled from the spec: snapping rounds a normalized value to the
nearest value representable by the stepped range. -/
def IntRange.snapped (r : IntRange) (n : Normal) : Normal :=
  r.map_to_normal (r.unmap_to_value n)

/-- Modelled from the spec: a logarithmic decibel range with a non-linear
curve biased so that values near the configured zero point change more
slowly per unit of normalized input than values far from it. -/
structure LogDBRange where
  min : ℚ
  max : ℚ
  zero_normal : Normal
  deriving DecidableEq

/-- Modelled from the spec: `LogDBRange::new(min, max, zero_normal)`. -/
def LogDBRange.new (min max : ℚ) (zero : Normal) : LogDBRange :=
  { min := min, max := max, zero_normal := zero }

/-- Modelled from the spec: the decibel conversion maps the zero point to
0 dB and bends quadratically towards each end, so displacement per unit
of normalized input grows with the distance from the zero point. -/
def LogDBRange.unmap_to_value (r : LogDBRange) (n : Normal) : ℚ :=
  if r.zero_normal ≤ n then
    r.max * ((n - r.zero_normal) / (1 - r.zero_normal)) ^ 2
  else
    r.min * ((r.zero_normal - n) / r.zero_normal) ^ 2

/-- Modelled from the spec: a logarithmic frequency range spanning a
fixed ten-octave spectrum, each octave occupying an equal fraction of
normalized input. -/
structure FreqRange where
  min : ℚ
  max : ℚ
  deriving DecidableEq

/-- Modelled from the spec: the default frequency range spans 20 Hz to
20480 Hz. -/
def FreqRange.default : FreqRange :=
  { min := 20, max := 20480 }

/-- Modelled from the spec: the frequency conversion doubles once per
tenth of normalized input, starting from the low end of the spectrum. -/
noncomputable def FreqRange.unmap_to_value (r : FreqRange) (n : Normal) : ℝ :=
  (r.min : ℝ) * (2 : ℝ) ^ ((10 : ℝ) * (n : ℝ))

/-- Two-digit zero padding for the fractional part of fixed-point output. -/
def pad2 (k : ℕ) : String :=
  if k < 10 then "0" ++ toString k else toString k

/-- Three-digit zero padding for the fractional part of fixed-point output. -/
def pad3 (k : ℕ) : String :=
  if k < 10 then "00" ++ toString k
  else if k < 100 then "0" ++ toString k
  else toString k

/-- Renders an integer number of hundredths as a fixed two-decimal string. -/
def fixed2OfInt (n : ℤ) : String :=
  (if n < 0 then "-" else "") ++ toString (n.natAbs / 100) ++ "." ++ pad2 (n.natAbs % 100)

/-- Renders an integer number of thousandths as a fixed three-decimal string. -/
def fixed3OfInt (n : ℤ) : String :=
  (if n < 0 then "-" else "") ++ toString (n.natAbs / 1000) ++ "." ++ pad3 (n.natAbs % 1000)

/-- Fixed two-decimal formatting of a rational value (the Rust formatting
directive with precision 2). -/
def formatFixed2 (q : ℚ) : String :=
  fixed2OfInt (round (q * 100))

/-- Fixed three-decimal formatting of a rational value (the Rust formatting
directive with precision 3). -/
def formatFixed3 (q : ℚ) : String :=
  fixed3OfInt (round (q * 1000))

/-- Fixed two-decimal formatting of a real value, used for the frequency
display. -/
noncomputable def formatFixed2R (x : ℝ) : String :=
  fixed2OfInt (round (x * 100))

/-- Fractional decimal digits of a value in the unit interval, emitted
until the remainder vanishes or the fuel runs out. -/
def fracDigits : ℕ → ℚ → String
  | 0, _ => ""
  | fuel + 1, q =>
    if q = 0 then ""
    else toString ⌊q * 10⌋ ++ fracDigits fuel (q * 10 - (⌊q * 10⌋ : ℚ))

/-- Default decimal rendering of a rational value: no fixed precision,
no trailing zeros (the Rust default display of a scalar). -/
def formatDefault (q : ℚ) : String :=
  (if q < 0 then "-" else "")
    ++ toString ⌊|q|⌋.natAbs
    ++ (if fracDigits 64 (|q| - (⌊|q|⌋ : ℚ)) = "" then ""
        else "." ++ fracDigits 64 (|q| - (⌊|q|⌋ : ℚ)))

/-- The message when a parameter widget is moved by the user
(enum `Message` in the source). -/
inductive Message where
  | SliderChanged : ℚ → Message
  | ButtonClicked : ℕ → Message
  | HSliderInt : Normal → Message
  | VSliderDB : Normal → Message
  | KnobFreq : Normal → Message
  | XYPadFloat : Normal → Normal → Message

/-- The application state (struct `App` in the source): the plain demo
controls, the four conversion ranges, the five normalized parameters and
the output text.  The two tick-mark groups are cosmetic annotations with
no semantic effect on value conversion and are not modelled. -/
structure App where
  slider_value : ℚ
  button_id : ℕ
  float_range : FloatRange
  int_range : IntRange
  db_range : LogDBRange
  freq_range : FreqRange
  h_slider_param : NormalParam
  v_slider_param : NormalParam
  knob_param : NormalParam
  xy_pad_x_param : NormalParam
  xy_pad_y_param : NormalParam
  output_text : String

/-- The event-dispatch function (`App::update` in the source): each event
variant updates its own fields and overwrites the output text. -/
noncomputable def App.update (s : App) (event : Message) : App :=
  match event with
  | .ButtonClicked id =>
    { s with output_text := "Button Clicked: " ++ toString id }
  | .SliderChanged value =>
    { s with
      slider_value := value
      output_text := "Slider Changed: " ++ formatDefault value }
  | .HSliderInt normal =>
    { s with
      h_slider_param := s.h_slider_param.update (s.int_range.snapped normal)
      output_text :=
        "HSliderInt: " ++ toString (s.int_range.unmap_to_value normal) }
  | .VSliderDB normal =>
    { s with
      v_slider_param := s.v_slider_param.update normal
      output_text :=
        "VSliderDB: " ++ formatFixed3 (s.db_range.unmap_to_value normal) }
  | .KnobFreq normal =>
    { s with
      knob_param := s.knob_param.update normal
      output_text :=
        "KnobFreq: " ++ formatFixed2R (s.freq_range.unmap_to_value normal) }
  | .XYPadFloat normal_x normal_y =>
    { s with
      xy_pad_x_param := s.xy_pad_x_param.update normal_x
      xy_pad_y_param := s.xy_pad_y_param.update normal_y
      output_text :=
        "XYPadFloat: x: " ++ formatFixed2 (s.float_range.unmap_to_value normal_x)
          ++ ", y: " ++ formatFixed2 (s.float_range.unmap_to_value normal_y) }

/-- A concrete sample state used by the closed witness statements. -/
def sampleApp : App :=
  { slider_value := 0
    button_id := 128
    float_range := FloatRange.default_bipolar
    int_range := IntRange.new 0 10
    db_range := LogDBRange.new (-12) 12 Normal.CENTER
    freq_range := FreqRange.default
    h_slider_param := { value := 1/2, default := 1/2 }
    v_slider_param := { value := 1/2, default := 1/2 }
    knob_param := { value := 1/2, default := 1/2 }
    xy_pad_x_param := { value := 1/2, default := 1/2 }
    xy_pad_y_param := { value := 1/2, default := 1/2 }
    output_text := "try anything" }

/-- The half-open interval of normalized values that snap to step `k` of
the stepped range over 0 to 10: the spec's "step's half-open interval". -/
def stepInterval (k : ℕ) (n : ℚ) : Prop :=
  (2 * (k : ℚ) - 1) / 20 ≤ n ∧ n < (2 * (k : ℚ) + 1) / 20

/-! ### Helper lemmas about the stepped range over 0 to 10 -/

theorem floor_intCast_add_half (m : ℤ) : ⌊(m : ℚ) + 1/2⌋ = m := by
  rw [Int.floor_int_add]
  have : ⌊(1/2 : ℚ)⌋ = 0 := by
    rw [Int.floor_eq_iff]
    norm_num
  omega

theorem intRange10_unmap_eq (n : ℚ) :
    (IntRange.new 0 10).unmap_to_value n = ⌊10 * n + 1/2⌋ := by
  show ⌊((0 : ℤ) : ℚ) + n * (((10 : ℤ) : ℚ) - ((0 : ℤ) : ℚ)) + 1/2⌋ = ⌊10 * n + 1/2⌋
  congr 1
  push_cast
  ring

theorem intRange10_snapped_eq (n : ℚ) :
    (IntRange.new 0 10).snapped n = (⌊10 * n + 1/2⌋ : ℚ) / 10 := by
  show ((((IntRange.new 0 10).unmap_to_value n : ℤ) : ℚ) - ((0 : ℤ) : ℚ))
      / (((10 : ℤ) : ℚ) - ((0 : ℤ) : ℚ)) = _
  rw [intRange10_unmap_eq]
  push_cast
  ring

theorem intRange10_unmap_snapped (n : ℚ) :
    (IntRange.new 0 10).unmap_to_value ((IntRange.new 0 10).snapped n)
      = (IntRange.new 0 10).unmap_to_value n := by
  rw [intRange10_snapped_eq, intRange10_unmap_eq, intRange10_unmap_eq]
  rw [show (10 : ℚ) * ((⌊10 * n + 1/2⌋ : ℚ) / 10) = (⌊10 * n + 1/2⌋ : ℚ) by
    field_simp]
  exact floor_intCast_add_half _

theorem intRange10_snap_idem (n : ℚ) :
    (IntRange.new 0 10).snapped ((IntRange.new 0 10).snapped n)
      = (IntRange.new 0 10).snapped n := by
  have h := intRange10_unmap_snapped n
  simp only [IntRange.snapped] at h ⊢
  rw [h]

theorem stepInterval_floor (k : ℕ) (n : ℚ) (h : stepInterval k n) :
    ⌊10 * n + 1/2⌋ = (k : ℤ) := by
  obtain ⟨hl, hu⟩ := h
  rw [Int.floor_eq_iff]
  constructor
  · push_cast
    linarith
  · push_cast
    linarith

theorem floor10_nonneg (n : ℚ) (h0 : 0 ≤ n) : 0 ≤ ⌊10 * n + 1/2⌋ :=
  Int.le_floor.mpr (by push_cast; linarith)

theorem floor10_le_ten (n : ℚ) (h1 : n ≤ 1) : ⌊10 * n + 1/2⌋ ≤ 10 := by
  have : ⌊10 * n + 1/2⌋ < 11 := Int.floor_lt.mpr (by push_cast; linarith)
  omega

/-! ### Helper lemmas evaluating the string formatters -/

theorem fracDigits_succ (fuel : ℕ) (q : ℚ) :
    fracDigits (fuel + 1) q
      = if q = 0 then ""
        else toString ⌊q * 10⌋ ++ fracDigits fuel (q * 10 - (⌊q * 10⌋ : ℚ)) :=
  rfl

theorem formatFixed2_neg_half : formatFixed2 (-(1/2) : ℚ) = "-0.50" := by
  have h : round ((-(1/2) : ℚ) * 100) = -50 := by
    rw [round_eq, show ((-(1/2) : ℚ) * 100 + 1/2) = -99/2 by norm_num,
      Int.floor_eq_iff]
    norm_num
  simp only [formatFixed2]
  rw [h]
  decide

theorem formatFixed2_half : formatFixed2 (1/2 : ℚ) = "0.50" := by
  have h : round ((1/2 : ℚ) * 100) = 50 := by
    rw [round_eq, show ((1/2 : ℚ) * 100 + 1/2) = 101/2 by norm_num,
      Int.floor_eq_iff]
    norm_num
  simp only [formatFixed2]
  rw [h]
  decide

theorem fracDigits_half : fracDigits 64 (1/2 : ℚ) = "5" := by
  rw [show (64 : ℕ) = 63 + 1 from rfl, fracDigits_succ,
    if_neg (by norm_num : ¬ (1/2 : ℚ) = 0)]
  have h5 : ⌊(1/2 : ℚ) * 10⌋ = 5 := by
    rw [show ((1/2 : ℚ) * 10) = 5 by norm_num, Int.floor_eq_iff]
    norm_num
  rw [h5, show ((1/2 : ℚ) * 10 - ((5 : ℤ) : ℚ)) = 0 by push_cast; norm_num,
    show (63 : ℕ) = 62 + 1 from rfl, fracDigits_succ, if_pos rfl]
  decide

theorem formatDefault_half : formatDefault (1/2 : ℚ) = "0.5" := by
  have habs : |(1/2 : ℚ)| = 1/2 := by norm_num
  have hfl : ⌊(1/2 : ℚ)⌋ = 0 := by
    rw [Int.floor_eq_iff]
    norm_num
  simp only [formatDefault, habs, hfl]
  rw [show ((1/2 : ℚ) - ((0 : ℤ) : ℚ)) = 1/2 by push_cast; norm_num,
    fracDigits_half]
  rw [if_neg (by norm_num : ¬ (1/2 : ℚ) < 0), if_neg (by decide : ¬ ("5" : String) = "")]
  decide

/-! ### Claim theorems -/

/-- Claim C1: processing an `HSliderInt` event with a normalized value `n`
in the unit interval stores the snapped value `int_range.snapped n` into
the horizontal-slider parameter, and that stored value corresponds to one
of the eleven representable integers of the stepped range over 0 to 10. -/
theorem hslider_stores_snapped (s : App) (n : Normal)
    (hr : s.int_range = IntRange.new 0 10) (h0 : 0 ≤ n) (h1 : n ≤ 1) :
    (s.update (Message.HSliderInt n)).h_slider_param.value = s.int_range.snapped n ∧
    ∃ k : ℕ, k ≤ 10 ∧ s.int_range.snapped n = (k : ℚ) / 10 := by
  constructor
  · rfl
  · rw [hr]
    have hl := floor10_nonneg n h0
    have hu := floor10_le_ten n h1
    refine ⟨⌊10 * n + 1/2⌋.toNat, by omega, ?_⟩
    rw [intRange10_snapped_eq]
    congr 1
    rw [show ((⌊10 * n + 1/2⌋.toNat : ℕ) : ℚ) = ((⌊10 * n + 1/2⌋.toNat : ℤ) : ℚ) by
      push_cast; ring]
    rw [Int.toNat_of_nonneg hl]

/-- Witness for C1 at a concrete state and input. -/
theorem hslider_stores_snapped_witness :
    (sampleApp.update (Message.HSliderInt (27/100))).h_slider_param.value
        = sampleApp.int_range.snapped (27/100) ∧
    ∃ k : ℕ, k ≤ 10 ∧ sampleApp.int_range.snapped (27/100) = (k : ℚ) / 10 :=
  hslider_stores_snapped sampleApp (27/100) rfl (by norm_num) (by norm_num)

/-- Claim C2: after an `HSliderInt` event the displayed integer equals the
conversion of the snapped stored normalized value,
`int_range.unmap_to_value (int_range.snapped n)`: the display reflects the
value after snapping. -/
theorem hslider_display_after_snap (s : App) (n : Normal)
    (hr : s.int_range = IntRange.new 0 10) :
    (s.update (Message.HSliderInt n)).output_text
      = "HSliderInt: " ++ toString (s.int_range.unmap_to_value (s.int_range.snapped n)) := by
  have hout : (s.update (Message.HSliderInt n)).output_text
      = "HSliderInt: " ++ toString (s.int_range.unmap_to_value n) := rfl
  rw [hout, hr, intRange10_unmap_snapped]

/-- Witness for C2 at a concrete state and input. -/
theorem hslider_display_after_snap_witness :
    (sampleApp.update (Message.HSliderInt (33/100))).output_text
      = "HSliderInt: "
          ++ toString (sampleApp.int_range.unmap_to_value (sampleApp.int_range.snapped (33/100))) :=
  hslider_display_after_snap sampleApp (33/100) rfl

/-- Claim C3: every event changes only its own state fields: the four
ranges are always unchanged, each slider/knob event rewrites exactly its
own parameter, the XY-pad event rewrites exactly the x and y parameters
together, the plain button and slider events touch no normalized
parameter, and the display string is regenerated on every event. -/
theorem update_frame (s : App) (e : Message) :
    (s.update e).float_range = s.float_range ∧
    (s.update e).int_range = s.int_range ∧
    (s.update e).db_range = s.db_range ∧
    (s.update e).freq_range = s.freq_range ∧
    (match e with
     | .ButtonClicked id =>
        (s.update e).slider_value = s.slider_value ∧
        (s.update e).h_slider_param = s.h_slider_param ∧
        (s.update e).v_slider_param = s.v_slider_param ∧
        (s.update e).knob_param = s.knob_param ∧
        (s.update e).xy_pad_x_param = s.xy_pad_x_param ∧
        (s.update e).xy_pad_y_param = s.xy_pad_y_param ∧
        (s.update e).output_text = "Button Clicked: " ++ toString id
     | .SliderChanged v =>
        (s.update e).slider_value = v ∧
        (s.update e).h_slider_param = s.h_slider_param ∧
        (s.update e).v_slider_param = s.v_slider_param ∧
        (s.update e).knob_param = s.knob_param ∧
        (s.update e).xy_pad_x_param = s.xy_pad_x_param ∧
        (s.update e).xy_pad_y_param = s.xy_pad_y_param ∧
        (s.update e).output_text = "Slider Changed: " ++ formatDefault v
     | .HSliderInt n =>
        (s.update e).slider_value = s.slider_value ∧
        (s.update e).h_slider_param = s.h_slider_param.update (s.int_range.snapped n) ∧
        (s.update e).v_slider_param = s.v_slider_param ∧
        (s.update e).knob_param = s.knob_param ∧
        (s.update e).xy_pad_x_param = s.xy_pad_x_param ∧
        (s.update e).xy_pad_y_param = s.xy_pad_y_param ∧
        (s.update e).output_text
          = "HSliderInt: " ++ toString (s.int_range.unmap_to_value n)
     | .VSliderDB n =>
        (s.update e).slider_value = s.slider_value ∧
        (s.update e).h_slider_param = s.h_slider_param ∧
        (s.update e).v_slider_param = s.v_slider_param.update n ∧
        (s.update e).knob_param = s.knob_param ∧
        (s.update e).xy_pad_x_param = s.xy_pad_x_param ∧
        (s.update e).xy_pad_y_param = s.xy_pad_y_param ∧
        (s.update e).output_text
          = "VSliderDB: " ++ formatFixed3 (s.db_range.unmap_to_value n)
     | .KnobFreq n =>
        (s.update e).slider_value = s.slider_value ∧
        (s.update e).h_slider_param = s.h_slider_param ∧
        (s.update e).v_slider_param = s.v_slider_param ∧
        (s.update e).knob_param = s.knob_param.update n ∧
        (s.update e).xy_pad_x_param = s.xy_pad_x_param ∧
        (s.update e).xy_pad_y_param = s.xy_pad_y_param ∧
        (s.update e).output_text
          = "KnobFreq: " ++ formatFixed2R (s.freq_range.unmap_to_value n)
     | .XYPadFloat nx ny =>
        (s.update e).slider_value = s.slider_value ∧
        (s.update e).h_slider_param = s.h_slider_param ∧
        (s.update e).v_slider_param = s.v_slider_param ∧
        (s.update e).knob_param = s.knob_param ∧
        (s.update e).xy_pad_x_param = s.xy_pad_x_param.update nx ∧
        (s.update e).xy_pad_y_param = s.xy_pad_y_param.update ny ∧
        (s.update e).output_text
          = "XYPadFloat: x: " ++ formatFixed2 (s.float_range.unmap_to_value nx)
              ++ ", y: " ++ formatFixed2 (s.float_range.unmap_to_value ny)) := by
  cases e <;>
    exact ⟨rfl, rfl, rfl, rfl, rfl, rfl, rfl, rfl, rfl, rfl, rfl⟩

/-- Claim C4: a button-click event with identifier 7 overwrites the
display string with exactly "Button Clicked: 7", whatever the previous
state was, and for every identifier the display is "Button Clicked: "
followed by the decimal rendering of the identifier. -/
theorem button_click_display (s : App) :
    (s.update (Message.ButtonClicked 7)).output_text = "Button Clicked: 7" ∧
    ∀ id : ℕ, (s.update (Message.ButtonClicked id)).output_text
        = "Button Clicked: " ++ toString id :=
  ⟨rfl, fun _ => rfl⟩

/-- Claim C5: an XY-pad event with normalized values (1/4, 3/4) on the
bipolar linear float range stores both normalized values and sets the
display string to the linearly mapped coordinates with two decimals,
exactly "XYPadFloat: x: -0.50, y: 0.50". -/
theorem xypad_quarter_display (s : App)
    (hf : s.float_range = FloatRange.default_bipolar) :
    (s.update (Message.XYPadFloat (1/4) (3/4))).xy_pad_x_param.value = 1/4 ∧
    (s.update (Message.XYPadFloat (1/4) (3/4))).xy_pad_y_param.value = 3/4 ∧
    (s.update (Message.XYPadFloat (1/4) (3/4))).output_text
      = "XYPadFloat: x: -0.50, y: 0.50" := by
  refine ⟨rfl, rfl, ?_⟩
  have hout : (s.update (Message.XYPadFloat (1/4) (3/4))).output_text
      = "XYPadFloat: x: " ++ formatFixed2 (s.float_range.unmap_to_value (1/4))
          ++ ", y: " ++ formatFixed2 (s.float_range.unmap_to_value (3/4)) := rfl
  have hx : FloatRange.default_bipolar.unmap_to_value (1/4) = -(1/2) := by
    show (-1 : ℚ) + (1/4) * (1 - (-1)) = -(1/2)
    norm_num
  have hy : FloatRange.default_bipolar.unmap_to_value (3/4) = 1/2 := by
    show (-1 : ℚ) + (3/4) * (1 - (-1)) = 1/2
    norm_num
  rw [hout, hf, hx, hy, formatFixed2_neg_half, formatFixed2_half]
  rfl

/-- Witness for C5 at a concrete state. -/
theorem xypad_quarter_display_witness :
    (sampleApp.update (Message.XYPadFloat (1/4) (3/4))).xy_pad_x_param.value = 1/4 ∧
    (sampleApp.update (Message.XYPadFloat (1/4) (3/4))).xy_pad_y_param.value = 3/4 ∧
    (sampleApp.update (Message.XYPadFloat (1/4) (3/4))).output_text
      = "XYPadFloat: x: -0.50, y: 0.50" :=
  xypad_quarter_display sampleApp rfl

/-- Claim C6: on the stepped range over 0 to 10, any two normalized
values in the same step's half-open interval give the same integer after
snapping followed by conversion, and snapping is idempotent on the unit
interval. -/
theorem int_step_snapping (k : ℕ) (n1 n2 m : ℚ) (hk : k ≤ 10)
    (h1 : stepInterval k n1) (h2 : stepInterval k n2)
    (hm0 : 0 ≤ m) (hm1 : m ≤ 1) :
    (IntRange.new 0 10).unmap_to_value ((IntRange.new 0 10).snapped n1)
      = (IntRange.new 0 10).unmap_to_value ((IntRange.new 0 10).snapped n2) ∧
    (IntRange.new 0 10).snapped ((IntRange.new 0 10).snapped m)
      = (IntRange.new 0 10).snapped m := by
  refine ⟨?_, intRange10_snap_idem m⟩
  rw [intRange10_unmap_snapped, intRange10_unmap_snapped,
    intRange10_unmap_eq, intRange10_unmap_eq,
    stepInterval_floor k n1 h1, stepInterval_floor k n2 h2]

/-- Witness for C6 at step 3 with two concrete inputs of its interval. -/
theorem int_step_snapping_witness :
    (IntRange.new 0 10).unmap_to_value ((IntRange.new 0 10).snapped (27/100))
      = (IntRange.new 0 10).unmap_to_value ((IntRange.new 0 10).snapped (3/10)) ∧
    (IntRange.new 0 10).snapped ((IntRange.new 0 10).snapped (77/100))
      = (IntRange.new 0 10).snapped (77/100) :=
  int_step_snapping 3 (27/100) (3/10) (77/100) (by norm_num)
    ⟨by norm_num, by norm_num⟩ ⟨by norm_num, by norm_num⟩
    (by norm_num) (by norm_num)

/-- Claim C7: on the bipolar linear float range, the normalized midpoint
converts to 0 and the normalized endpoints convert to the range's
minimum -1 and maximum 1. -/
theorem float_bipolar_endpoints :
    FloatRange.default_bipolar.unmap_to_value (1/2) = 0 ∧
    FloatRange.default_bipolar.unmap_to_value 0 = -1 ∧
    FloatRange.default_bipolar.unmap_to_value 1 = 1 := by
  refine ⟨?_, ?_, ?_⟩
  · show (-1 : ℚ) + (1/2) * (1 - (-1)) = 0
    norm_num
  · show (-1 : ℚ) + 0 * (1 - (-1)) = -1
    norm_num
  · show (-1 : ℚ) + 1 * (1 - (-1)) = 1
    norm_num

/-- Claim C8: the default frequency range converts 0 to 20 Hz and 1 to
20480 Hz, and adding a tenth to a normalized value inside the unit
interval doubles the converted frequency (one octave per tenth). -/
theorem freq_octave_doubling (n : ℚ) (h0 : 0 ≤ n) (h1 : n + 1/10 ≤ 1) :
    FreqRange.default.unmap_to_value 0 = 20 ∧
    FreqRange.default.unmap_to_value 1 = 20480 ∧
    FreqRange.default.unmap_to_value (n + 1/10)
      = 2 * FreqRange.default.unmap_to_value n := by
  refine ⟨?_, ?_, ?_⟩
  · show ((20 : ℚ) : ℝ) * (2 : ℝ) ^ ((10 : ℝ) * ((0 : ℚ) : ℝ)) = 20
    rw [show ((10 : ℝ) * ((0 : ℚ) : ℝ)) = 0 by push_cast; ring, Real.rpow_zero]
    norm_num
  · show ((20 : ℚ) : ℝ) * (2 : ℝ) ^ ((10 : ℝ) * ((1 : ℚ) : ℝ)) = 20480
    rw [show ((10 : ℝ) * ((1 : ℚ) : ℝ)) = ((10 : ℕ) : ℝ) by push_cast; ring,
      Real.rpow_natCast]
    norm_num
  · show ((20 : ℚ) : ℝ) * (2 : ℝ) ^ ((10 : ℝ) * (((n + 1/10 : ℚ)) : ℝ))
        = 2 * (((20 : ℚ) : ℝ) * (2 : ℝ) ^ ((10 : ℝ) * ((n : ℚ) : ℝ)))
    rw [show ((10 : ℝ) * (((n + 1/10 : ℚ)) : ℝ)) = (10 : ℝ) * ((n : ℚ) : ℝ) + 1 by
      push_cast; ring]
    rw [Real.rpow_add (by norm_num : (0 : ℝ) < 2), Real.rpow_one]
    ring

/-- Witness for C8 at the bottom of the spectrum. -/
theorem freq_octave_doubling_witness :
    FreqRange.default.unmap_to_value 0 = 20 ∧
    FreqRange.default.unmap_to_value 1 = 20480 ∧
    FreqRange.default.unmap_to_value ((0 : ℚ) + 1/10)
      = 2 * FreqRange.default.unmap_to_value 0 :=
  freq_octave_doubling 0 le_rfl (by norm_num)

/-- The decibel conversion of the panel's range at displacement `d` on or
above the center: it evaluates to the quadratic curve 48 d^2. -/
theorem db_unmap_above_center (d : ℚ) (hd : 0 ≤ d) :
    (LogDBRange.new (-12) 12 Normal.CENTER).unmap_to_value (1/2 + d)
      = 48 * d ^ 2 := by
  show (if (1/2 : ℚ) ≤ 1/2 + d then
          (12 : ℚ) * ((1/2 + d - 1/2) / (1 - 1/2)) ^ 2
        else (-12 : ℚ) * ((1/2 - (1/2 + d)) / (1/2)) ^ 2) = 48 * d ^ 2
  rw [if_pos (by linarith : (1/2 : ℚ) ≤ 1/2 + d)]
  ring

/-- Claim C9: on the decibel range from -12 to 12 centered at the middle,
the center converts to 0 dB exactly, and the dB displacement grows
faster than linearly in the normalized displacement from center: for
displacements 0 < d1 < d2 up to one half, the average slope at d2
exceeds the average slope at d1 (so the curve is not proportional). -/
theorem db_center_superlinear (d1 d2 : ℚ)
    (h1 : 0 < d1) (h2 : d1 < d2) (h3 : d2 ≤ 1/2) :
    (LogDBRange.new (-12) 12 Normal.CENTER).unmap_to_value (1/2) = 0 ∧
    d2 * (LogDBRange.new (-12) 12 Normal.CENTER).unmap_to_value (1/2 + d1)
      < d1 * (LogDBRange.new (-12) 12 Normal.CENTER).unmap_to_value (1/2 + d2) := by
  constructor
  · show (if (1/2 : ℚ) ≤ 1/2 then
            (12 : ℚ) * ((1/2 - 1/2) / (1 - 1/2)) ^ 2
          else (-12 : ℚ) * ((1/2 - 1/2) / (1/2)) ^ 2) = 0
    rw [if_pos le_rfl]
    ring
  · rw [db_unmap_above_center d1 h1.le, db_unmap_above_center d2 (h1.trans h2).le]
    have hd2 : 0 < d2 := h1.trans h2
    nlinarith [mul_pos (mul_pos h1 hd2) (sub_pos.mpr h2)]

/-- Witness for C9 at the displacements 1/8 and 1/4. -/
theorem db_center_superlinear_witness :
    (LogDBRange.new (-12) 12 Normal.CENTER).unmap_to_value (1/2) = 0 ∧
    (1/4 : ℚ) * (LogDBRange.new (-12) 12 Normal.CENTER).unmap_to_value (1/2 + 1/8)
      < (1/8 : ℚ) * (LogDBRange.new (-12) 12 Normal.CENTER).unmap_to_value (1/2 + 1/4) :=
  db_center_superlinear (1/8) (1/4) (by norm_num) (by norm_num) (by norm_num)

/-- Claim C10: a `SliderChanged` event stores the scalar into
`slider_value`, overwrites the display with "Slider Changed: " followed
by the default decimal rendering of the scalar, and leaves every
normalized parameter and every range unchanged; the default rendering
carries no fixed precision, unlike the two-decimal formatter. -/
theorem slider_changed_effect (s : App) (v : ℚ) :
    (s.update (Message.SliderChanged v)).slider_value = v ∧
    (s.update (Message.SliderChanged v)).output_text
      = "Slider Changed: " ++ formatDefault v ∧
    (s.update (Message.SliderChanged v)).h_slider_param = s.h_slider_param ∧
    (s.update (Message.SliderChanged v)).v_slider_param = s.v_slider_param ∧
    (s.update (Message.SliderChanged v)).knob_param = s.knob_param ∧
    (s.update (Message.SliderChanged v)).xy_pad_x_param = s.xy_pad_x_param ∧
    (s.update (Message.SliderChanged v)).xy_pad_y_param = s.xy_pad_y_param ∧
    (s.update (Message.SliderChanged v)).float_range = s.float_range ∧
    (s.update (Message.SliderChanged v)).int_range = s.int_range ∧
    (s.update (Message.SliderChanged v)).db_range = s.db_range ∧
    (s.update (Message.SliderChanged v)).freq_range = s.freq_range ∧
    formatDefault (1/2 : ℚ) ≠ formatFixed2 (1/2 : ℚ) := by
  refine ⟨rfl, rfl, rfl, rfl, rfl, rfl, rfl, rfl, rfl, rfl, rfl, ?_⟩
  rw [formatDefault_half, formatFixed2_half]
  decide

end ParisGreen
